import Mathlib

/-!
Shallow embedding of the singer SDK snapshot: the target-side `Sink`
(src/singer_sdk/sinks.py), the source-side `TapBase`
(src/tap_base/TapBase.py) and the sample Snowflake connection helper
(src/tests/sample_tap_snowflake/SampleTapSnowfakeConnection.py).

Python dictionaries are modelled as insertion-ordered association lists
with unique keys; the Python value `None` is `Value.vnone`, so a key that
is present with value `None` is distinguished from an absent key.
Fallible code returns `Except PyErr`.
-/

/-- Python values as far as the claims need them: `None`, strings, integers. -/
inductive Value where
  | vnone : Value
  | vstr : String → Value
  | vint : Int → Value
deriving DecidableEq, Repr

/-- A Python dictionary with string keys: an insertion-ordered association list. -/
abbrev Rec := List (String × Value)

/-- Dictionary lookup, `d[k]` as an `Option` (first matching key). -/
def dictGet {α : Type} : List (String × α) → String → Option α
  | [], _ => Option.none
  | (k2, v) :: rest, k => if k2 = k then some v else dictGet rest k

/-- Dictionary update `d[k] = v`: replaces the first occurrence of `k` in
place (Python dicts keep insertion order on update) or appends it. -/
def dictSet {α : Type} : List (String × α) → String → α → List (String × α)
  | [], k, v => [(k, v)]
  | (k2, v2) :: rest, k, v =>
    if k2 = k then (k, v) :: rest else (k2, v2) :: dictSet rest k v

/-- The key view of a dictionary, in insertion order. -/
def dictKeys {α : Type} (d : List (String × α)) : List String :=
  d.map Prod.fst

/-- Python `d.get(k)`: the stored value, or `None` when the key is absent. -/
def pyGet (d : Rec) (k : String) : Value :=
  (dictGet d k).getD Value.vnone

theorem dictGet_dictSet_self {α : Type} (d : List (String × α)) (k : String) (v : α) :
    dictGet (dictSet d k v) k = some v := by
  induction d with
  | nil => simp [dictGet, dictSet]
  | cons hd tl ih =>
    obtain ⟨k2, v2⟩ := hd
    by_cases h : k2 = k
    · simp [dictSet, h, dictGet]
    · simp [dictSet, h, dictGet, ih]

theorem dictGet_dictSet_ne {α : Type} (d : List (String × α)) (ks kq : String) (v : α)
    (h : ks ≠ kq) : dictGet (dictSet d ks v) kq = dictGet d kq := by
  induction d with
  | nil => simp [dictGet, dictSet, h]
  | cons hd tl ih =>
    obtain ⟨k2, v2⟩ := hd
    by_cases h2 : k2 = ks
    · subst h2
      simp [dictSet, dictGet, h]
    · by_cases h3 : k2 = kq
      · subst h3
        simp [dictSet, h2, dictGet]
      · simp [dictSet, h2, dictGet, h3, ih]

theorem pyGet_dictSet_ne (d : Rec) (ks kq : String) (v : Value) (h : ks ≠ kq) :
    pyGet (dictSet d ks v) kq = pyGet d kq := by
  simp [pyGet, dictGet_dictSet_ne d ks kq v h]

/-- Python exceptions raised by the embedded code. -/
inductive PyErr where
  | keyError : String → PyErr
  | valueError : String → PyErr
  | notImplementedError : String → PyErr
  | attributeError : String → PyErr
  | tooManyRecords : String → PyErr
  | pyExn : String → PyErr
deriving DecidableEq, Repr

/-- The datetime error treatment enum from singer_sdk.helpers._typing. -/
inductive DatetimeErrorTreatmentEnum where
  | ERROR : DatetimeErrorTreatmentEnum
  | MAX : DatetimeErrorTreatmentEnum
  | NULL : DatetimeErrorTreatmentEnum
deriving DecidableEq, Repr

/-- The value held in `Sink.records_to_drain`. The source declares it as
`Union[List[dict], Any]`; a non-list value (possible only through a
subclass override) carries its type name and its Python truthiness. -/
inductive Buffer where
  | list : List Rec → Buffer
  | nonList : String → Bool → Buffer
deriving DecidableEq, Repr

/-- Python truthiness of the buffer value (a list is truthy iff non-empty). -/
def Buffer.truthy : Buffer → Bool
  | .list l => !l.isEmpty
  | .nonList _ t => t

/-- The element view of a buffer (empty for a non-list value). -/
def Buffer.elems : Buffer → List Rec
  | .list l => l
  | .nonList _ _ => []

/-- A schema mapping carrying its `properties` sub-mapping of
field name to type descriptor (the only part the Sink consults). -/
structure Schema where
  properties : Rec
deriving DecidableEq, Repr

/-- State of one target `Sink` instance (src/singer_sdk/sinks.py). -/
structure SinkState where
  config : Rec
  stream_name : String
  schema : Schema
  key_properties : Option (List String)
  records_to_drain : Buffer
  records_draining : Option Buffer
  num_records_since_drain : Nat
  total_records_read : Nat
  total_records_written : Nat
  dupe_records_merged : Nat
deriving DecidableEq, Repr

/-- `Sink.MAX_SIZE_DEFAULT`. -/
def MAX_SIZE_DEFAULT : Nat := 10000

/-- `Sink.__init__`: copies the config of the target, stores stream name and
schema, starts with an empty list buffer and no draining batch; the tally
counters start at their class-level value 0. -/
def Sink.init (target_config : Rec) (stream_name : String) (schema : Schema)
    (key_properties : Option (List String)) : SinkState :=
  { config := target_config
    stream_name := stream_name
    schema := schema
    key_properties := key_properties
    records_to_drain := Buffer.list []
    records_draining := Option.none
    num_records_since_drain := 0
    total_records_read := 0
    total_records_written := 0
    dupe_records_merged := 0 }

/-- `Sink.max_size`: returns `MAX_SIZE_DEFAULT`. -/
def SinkState.max_size (_ : SinkState) : Nat := MAX_SIZE_DEFAULT

/-- `Sink.current_size`: `len(self.records_to_drain)`. `len` of a foreign
non-list buffer value is not determined by the model, hence `Option`. -/
def SinkState.current_size (st : SinkState) : Option Nat :=
  match st.records_to_drain with
  | .list l => some l.length
  | .nonList _ _ => Option.none

/-- `Sink.is_full`: `current_size >= max_size`. -/
def SinkState.is_full (st : SinkState) : Option Bool :=
  st.current_size.map (fun n => decide (n ≥ st.max_size))

/-- `Sink.load_record`: raises `ValueError` when the buffer is not a list,
otherwise appends the record to `records_to_drain`. -/
def Sink.load_record (st : SinkState) (record : Rec) : Except PyErr SinkState :=
  match st.records_to_drain with
  | .list l => Except.ok { st with records_to_drain := Buffer.list (l ++ [record]) }
  | .nonList tyName _ =>
    Except.error (PyErr.valueError
      ("Unexpected type " ++ tyName ++ " detected in records_to_drain."))

/-- `Sink.start_drain`: stores the current buffer as `_records_draining`,
resets `records_to_drain` to a fresh empty list, and returns the captured
batch. -/
def Sink.start_drain (st : SinkState) : SinkState × Buffer :=
  ({ st with
      records_draining := some st.records_to_drain
      records_to_drain := Buffer.list [] },
    st.records_to_drain)

/-- `Sink.drain`: the base implementation raises `NotImplementedError`
whenever the supplied batch is truthy (for a list: non-empty). -/
def Sink.drain (_ : SinkState) (records_to_drain : Buffer) : Except PyErr Unit :=
  if records_to_drain.truthy then
    Except.error (PyErr.notImplementedError
      ("Records were found to be drained and no handling exists for drain()."))
  else Except.ok ()

/-- `Sink.mark_drained`: sets `_records_draining` back to `None`. -/
def Sink.mark_drained (st : SinkState) : SinkState :=
  { st with records_draining := Option.none }

/-- Sequence of `load_record` calls, stopping at the first raised error. -/
def loadAll : List Rec → SinkState → Except PyErr SinkState
  | [], st => Except.ok st
  | r :: rs, st =>
    match Sink.load_record st r with
    | Except.error e => Except.error e
    | Except.ok st2 => loadAll rs st2

/-- `Sink._add_metadata_values_to_record`: three dictionary writes in
source order. `now_iso` stands for `datetime.datetime.now().isoformat()`.
Note that `message.get` and `record.get` return Python `None` when the key
is absent, so all three metadata keys are present afterwards. -/
def addMetadataValuesToRecord (record message : Rec) (now_iso : String) : Rec :=
  let r1 := dictSet record "_sdc_extracted_at" (pyGet message "time_extracted")
  let r2 := dictSet r1 "_sdc_batched_at" (Value.vstr now_iso)
  dictSet r2 "_sdc_deleted_at" (pyGet r2 "_sdc_deleted_at")

/-- `Sink._validate_timestamps_in_record`, inner loop over the keys of the record. The external helpers from singer_sdk.helpers._typing and dateutil
are parameters: `getDL` is `get_datelike_property_type` (returns the
detected kind or a falsy value), `parse` is `dateutil.parser.parse`
(raises on unparseable input), `repair` is
`handle_invalid_timestamp_in_record` (may itself raise, e.g. under the
ERROR treatment); the logger argument is dropped as a pure side effect.
A key of the record that is missing from `props` raises `KeyError`, as in
`schema["properties"][key]`. -/
def validateTsGo {K : Type} (getDL : String → Value → Option K)
    (parse : Value → Except PyErr Value)
    (repair : Rec → List String → Value → K → PyErr → DatetimeErrorTreatmentEnum →
      Except PyErr Value)
    (treatment : DatetimeErrorTreatmentEnum) (props : Rec) :
    List String → Rec → Except PyErr Rec
  | [], rec => Except.ok rec
  | k :: ks, rec =>
    match dictGet props k with
    | Option.none => Except.error (PyErr.keyError k)
    | some tdesc =>
      match getDL k tdesc with
      | Option.none => validateTsGo getDL parse repair treatment props ks rec
      | some kind =>
        let v := pyGet rec k
        match parse v with
        | Except.ok pv =>
          validateTsGo getDL parse repair treatment props ks (dictSet rec k pv)
        | Except.error ex =>
          match repair rec [k] v kind ex treatment with
          | Except.ok rv =>
            validateTsGo getDL parse repair treatment props ks (dictSet rec k rv)
          | Except.error e => Except.error e

/-- `Sink._validate_timestamps_in_record`: iterates over `record.keys()`
(value updates during the loop do not change the key view) against
`schema["properties"]`. -/
def validateTimestampsInRecord {K : Type} (getDL : String → Value → Option K)
    (parse : Value → Except PyErr Value)
    (repair : Rec → List String → Value → K → PyErr → DatetimeErrorTreatmentEnum →
      Except PyErr Value)
    (record : Rec) (schema : Schema) (treatment : DatetimeErrorTreatmentEnum) :
    Except PyErr Rec :=
  validateTsGo getDL parse repair treatment schema.properties (dictKeys record) record

/-!
The Tap model (src/tap_base/TapBase.py). A connection instance is a value
carrying the class it was constructed from, the configuration it was
constructed with, and a fresh allocation id, so that instance identity is
observable. The `_conn` attribute of a tap is modelled explicitly as
either unset (the class body only annotates it, so reading it raises
`AttributeError`) or assigned to a Python value.
-/

/-- A value held by the `_conn` attribute: Python `None`, or a connection
instance tagged with the class name, the construction-time configuration
and an allocation id. -/
inductive ConnVal where
  | pynone : ConnVal
  | conn : String → Rec → Nat → ConnVal
deriving DecidableEq, Repr

/-- Python truthiness of a `_conn` value (object instances are truthy). -/
def ConnVal.truthy : ConnVal → Bool
  | .pynone => false
  | .conn _ _ _ => true

/-- The `_conn` attribute slot: a bare class-level annotation assigns no
value, so the slot starts unset and reading it raises `AttributeError`. -/
inductive ConnAttr where
  | unset : ConnAttr
  | assigned : ConnVal → ConnAttr
deriving DecidableEq, Repr

/-- State of one `TapBase` instance. `nextConnId` is the allocation
counter that gives each constructed connection instance a fresh id. -/
structure TapState where
  name : String
  vers : String
  capabilities : List String
  accepted_options : List String
  option_set_requirements : List (List String)
  conn_class : String
  config : Rec
  connAttr : ConnAttr
  nextConnId : Nat
deriving DecidableEq, Repr

/-- `TapBase.get_connection`: evaluating `self._conn` on an unset slot
raises `AttributeError`; a falsy value triggers construction of a fresh
instance of `self._conn_class` from `self._config`, which is cached; a
truthy value is returned as is. -/
def get_connection (st : TapState) : Except PyErr (ConnVal × TapState) :=
  match st.connAttr with
  | ConnAttr.unset => Except.error (PyErr.attributeError "_conn")
  | ConnAttr.assigned v =>
    if v.truthy then Except.ok (v, st)
    else
      let c := ConnVal.conn st.conn_class st.config st.nextConnId
      Except.ok (c, { st with
        connAttr := ConnAttr.assigned c
        nextConnId := st.nextConnId + 1 })

/-- `TapBase.__init__`: assigns the plain fields in source order (the
`state` argument is accepted and unused), leaves `_conn` unset, then
evaluates `self.get_connection()` for the final assignment
`self._conn = self.get_connection()`. -/
def tapBaseInit (plugin_name version : String) (capabilities accepted_options : List String)
    (option_set_requirements : List (List String)) (connection_class : String)
    (config : Rec) (_state : Option Rec) : Except PyErr TapState :=
  let st0 : TapState :=
    { name := plugin_name
      vers := version
      capabilities := capabilities
      accepted_options := accepted_options
      option_set_requirements := option_set_requirements
      conn_class := connection_class
      config := config
      connAttr := ConnAttr.unset
      nextConnId := 0 }
  match get_connection st0 with
  | Except.error e => Except.error e
  | Except.ok (c, st1) => Except.ok { st1 with connAttr := ConnAttr.assigned c }

/-- The warning text built for an unexpected configuration key. -/
def warnMsg (k : String) : String :=
  "Unexpected config option found: " ++ k ++ "."

/-- A single quote character, for Python `str()` rendering of lists. -/
def singleQuote : String := String.singleton (Char.ofNat 39)

/-- Python `str()` of a string inside a list: single-quoted. -/
def pyReprStr (s : String) : String := singleQuote ++ s ++ singleQuote

/-- Python `str()` of a list of strings. -/
def pyReprList (l : List String) : String :=
  "[" ++ String.intercalate ", " (l.map pyReprStr) ++ "]"

/-- Python `str()` of a list of lists of strings. -/
def pyReprListList (l : List (List String)) : String :=
  "[" ++ String.intercalate ", " (l.map pyReprList) ++ "]"

/-- The error text built when no option set requirement is satisfied. -/
def optionSetErrMsg (missing : List (List String)) : String :=
  "One or more required config options are missing. " ++
    "Please complete one or more of the following sets: " ++ pyReprListList missing

/-- `TapBase.validate_config`: one warning per configuration key not in
`accepted_options` (keys in insertion order); when the option set
requirement list is truthy (non-empty) and no declared set has all of its
options among the configuration keys, a single error listing, per
unsatisfied set in order, the options missing from it, rendered with
Python `str()`. -/
def validate_config (st : TapState) : List String × List String :=
  let keys := dictKeys st.config
  let warnings := (keys.filter (fun k => decide (k ∉ st.accepted_options))).map warnMsg
  let errors :=
    if st.option_set_requirements.isEmpty then []
    else
      let matched_any :=
        st.option_set_requirements.any (fun rs => rs.all (fun x => decide (x ∈ keys)))
      let missing :=
        (st.option_set_requirements.filter
            (fun rs => !(rs.all (fun x => decide (x ∈ keys))))).map
          (fun rs => rs.filter (fun x => decide (x ∉ keys)))
      if matched_any then [] else [optionSetErrMsg missing]
  (warnings, errors)

/-!
The `query` method of the sample Snowflake connection
(src/tests/sample_tap_snowflake/SampleTapSnowfakeConnection.py). The
external warehouse cursor is a parameter `env` giving, per SQL text, the
reported row count (`cur.rowcount`, an integer that may be negative) and
the fully fetched dictionary rows (`cur.fetchall()`). The side effects
performed on the scoped cursor are recorded as an event trace, so that
statement order and the execute/fetch split are observable.
-/

/-- A dictionary-shaped result row. -/
abbrev Row := Rec

/-- The observable cursor outcome for one statement. -/
structure StmtResult where
  rowcount : Int
  rows : List Row
deriving DecidableEq, Repr

/-- One side effect on the scoped cursor. -/
inductive Event where
  | executed : String → Event
  | fetched : String → Event
deriving DecidableEq, Repr

/-- The SQL text of an execute event. -/
def executedSql : Event → Option String
  | Event.executed s => some s
  | Event.fetched _ => Option.none

/-- The message of the too-many-records failure, naming the limit. -/
def tooManyMsg (max_records : Int) : String :=
  "Query returned too many records. This query can return max " ++
    toString max_records ++ " records."

/-- The statement loop of `query`: execute each statement in order; if
`max_records` is truthy (non-zero) and the reported row count exceeds it,
raise before fetching; if the row count is positive, fetch all rows and
let them overwrite the accumulating result. -/
def queryGo (env : String → StmtResult) (max_records : Int) :
    List String → List Event → List Row → List Event × Except PyErr (List Row)
  | [], evs, result => (evs, Except.ok result)
  | sql :: rest, evs, result =>
    let r := env sql
    let evs2 := evs ++ [Event.executed sql]
    if max_records ≠ 0 ∧ r.rowcount > max_records then
      (evs2, Except.error (PyErr.tooManyRecords (tooManyMsg max_records)))
    else if r.rowcount > 0 then
      queryGo env max_records rest (evs2 ++ [Event.fetched sql]) r.rows
    else
      queryGo env max_records rest evs2 result

/-- The `query` argument: a single SQL statement or a list of statements. -/
inductive QueryArg where
  | single : String → QueryArg
  | list : List String → QueryArg

/-- `SampleTapSnowflakeConnection.query`: a list argument is wrapped in an
explicit transaction by prepending `START TRANSACTION`; the `params`
argument is passed through to the external cursor and is absorbed by
`env`. The result starts as the empty list. -/
def query (env : String → StmtResult) (q : QueryArg) (_params : Option Rec)
    (max_records : Int) : List Event × Except PyErr (List Row) :=
  match q with
  | QueryArg.single s => queryGo env max_records [s] [] []
  | QueryArg.list l => queryGo env max_records ("START TRANSACTION" :: l) [] []

/-- Modelled from the spec (§4.3, C6): the rows of the last executed
statement whose reported row count was positive, or the accumulator when
no statement produced rows. Stated separately from the source-embedded
`queryGo` so that the two can be compared. -/
def specLastRowReturningRows (env : String → StmtResult) :
    List String → List Row → List Row
  | [], acc => acc
  | s :: rest, acc =>
    specLastRowReturningRows env rest
      (if (env s).rowcount > 0 then (env s).rows else acc)

/-!
Supporting lemmas.
-/

theorem loadAll_list (rs : List Rec) : ∀ (st : SinkState) (l : List Rec),
    st.records_to_drain = Buffer.list l →
    loadAll rs st = Except.ok { st with records_to_drain := Buffer.list (l ++ rs) } := by
  induction rs with
  | nil =>
    intro st l h
    simp only [loadAll, List.append_nil, ← h]
  | cons r rs ih =>
    intro st l h
    simp only [loadAll, Sink.load_record, h]
    rw [ih { st with records_to_drain := Buffer.list (l ++ [r]) } (l ++ [r]) rfl]
    simp

theorem queryGo_zero (env : String → StmtResult) :
    ∀ (sqls : List String) (evs : List Event) (acc : List Row),
      (queryGo env 0 sqls evs acc).1.filterMap executedSql
          = evs.filterMap executedSql ++ sqls
        ∧ (queryGo env 0 sqls evs acc).2
            = Except.ok (specLastRowReturningRows env sqls acc) := by
  intro sqls
  induction sqls with
  | nil =>
    intro evs acc
    simp [queryGo, specLastRowReturningRows]
  | cons s rest ih =>
    intro evs acc
    simp only [queryGo, specLastRowReturningRows]
    have hguard : ¬((0 : Int) ≠ 0 ∧ (env s).rowcount > 0) := fun hc => hc.1 rfl
    rw [if_neg hguard]
    by_cases hpos : (env s).rowcount > 0
    · rw [if_pos hpos, if_pos hpos]
      refine ⟨?_, (ih _ _).2⟩
      rw [(ih _ _).1]
      simp [executedSql, List.filterMap_append]
    · rw [if_neg hpos, if_neg hpos]
      refine ⟨?_, (ih _ _).2⟩
      rw [(ih _ _).1]
      simp [executedSql, List.filterMap_append]

theorem specLastRowReturningRows_of_nonpos (env : String → StmtResult) :
    ∀ (sqls : List String) (acc : List Row),
      (∀ s ∈ sqls, ¬((env s).rowcount > 0)) →
      specLastRowReturningRows env sqls acc = acc := by
  intro sqls
  induction sqls with
  | nil => intro acc _; rfl
  | cons s rest ih =>
    intro acc h
    simp only [specLastRowReturningRows]
    rw [if_neg (h s (List.mem_cons_self s rest))]
    exact ih acc (fun x hx => h x (List.mem_cons_of_mem s hx))

theorem validateTsGo_preserves {K : Type} (getDL : String → Value → Option K)
    (parse : Value → Except PyErr Value)
    (repair : Rec → List String → Value → K → PyErr → DatetimeErrorTreatmentEnum →
      Except PyErr Value)
    (treatment : DatetimeErrorTreatmentEnum) (props : Rec) (k : String) :
    ∀ (ks : List String) (rec out : Rec), k ∉ ks →
      validateTsGo getDL parse repair treatment props ks rec = Except.ok out →
      dictGet out k = dictGet rec k := by
  intro ks
  induction ks with
  | nil =>
    intro rec out _ hrun
    simp only [validateTsGo, Except.ok.injEq] at hrun
    rw [hrun]
  | cons k1 ks ih =>
    intro rec out hk hrun
    have hk1 : k1 ≠ k := fun hc => hk (hc ▸ List.mem_cons_self k1 ks)
    have hkks : k ∉ ks := fun hc => hk (List.mem_cons_of_mem k1 hc)
    simp only [validateTsGo] at hrun
    cases hp : dictGet props k1 with
    | none => simp [hp] at hrun
    | some d1 =>
      simp only [hp] at hrun
      cases hdl : getDL k1 d1 with
      | none =>
        simp only [hdl] at hrun
        exact ih rec out hkks hrun
      | some kind1 =>
        simp only [hdl] at hrun
        cases hps : parse (pyGet rec k1) with
        | ok pv =>
          simp only [hps] at hrun
          rw [ih (dictSet rec k1 pv) out hkks hrun,
            dictGet_dictSet_ne rec k1 k pv hk1]
        | error ex =>
          simp only [hps] at hrun
          cases hrp : repair rec [k1] (pyGet rec k1) kind1 ex treatment with
          | ok rv =>
            simp only [hrp] at hrun
            rw [ih (dictSet rec k1 rv) out hkks hrun,
              dictGet_dictSet_ne rec k1 k rv hk1]
          | error e => simp [hrp] at hrun

theorem validateTsGo_replaces {K : Type} (getDL : String → Value → Option K)
    (parse : Value → Except PyErr Value)
    (repair : Rec → List String → Value → K → PyErr → DatetimeErrorTreatmentEnum →
      Except PyErr Value)
    (treatment : DatetimeErrorTreatmentEnum) (props : Rec)
    (k : String) (d : Value) (kind : K)
    (hd : dictGet props k = some d) (hdl : getDL k d = some kind) :
    ∀ (ks : List String) (rec out : Rec), ks.Nodup → k ∈ ks →
      validateTsGo getDL parse repair treatment props ks rec = Except.ok out →
      ((∃ pv, parse (pyGet rec k) = Except.ok pv ∧ dictGet out k = some pv)
        ∨ (∃ ex rm rv, parse (pyGet rec k) = Except.error ex
            ∧ repair rm [k] (pyGet rec k) kind ex treatment = Except.ok rv
            ∧ dictGet out k = some rv)) := by
  intro ks
  induction ks with
  | nil =>
    intro rec out _ hk
    exact absurd hk (List.not_mem_nil k)
  | cons k1 ks ih =>
    intro rec out hnd hk hrun
    simp only [validateTsGo] at hrun
    by_cases hk1 : k1 = k
    · subst hk1
      simp only [hd, hdl] at hrun
      have hnotin : k1 ∉ ks := (List.nodup_cons.mp hnd).1
      cases hps : parse (pyGet rec k1) with
      | ok pv =>
        simp only [hps] at hrun
        left
        refine ⟨pv, rfl, ?_⟩
        rw [validateTsGo_preserves getDL parse repair treatment props k1 ks
            (dictSet rec k1 pv) out hnotin hrun, dictGet_dictSet_self]
      | error ex =>
        simp only [hps] at hrun
        cases hrp : repair rec [k1] (pyGet rec k1) kind ex treatment with
        | ok rv =>
          simp only [hrp] at hrun
          right
          refine ⟨ex, rec, rv, rfl, hrp, ?_⟩
          rw [validateTsGo_preserves getDL parse repair treatment props k1 ks
              (dictSet rec k1 rv) out hnotin hrun, dictGet_dictSet_self]
        | error e => simp [hrp] at hrun
    · have hkks : k ∈ ks := by
        cases List.mem_cons.mp hk with
        | inl h => exact absurd h.symm hk1
        | inr h => exact h
      have hnd2 : ks.Nodup := (List.nodup_cons.mp hnd).2
      cases hp : dictGet props k1 with
      | none => simp [hp] at hrun
      | some d1 =>
        simp only [hp] at hrun
        cases hdl1 : getDL k1 d1 with
        | none =>
          simp only [hdl1] at hrun
          exact ih rec out hnd2 hkks hrun
        | some kind1 =>
          simp only [hdl1] at hrun
          cases hps : parse (pyGet rec k1) with
          | ok pv =>
            simp only [hps] at hrun
            have hres := ih (dictSet rec k1 pv) out hnd2 hkks hrun
            rw [pyGet_dictSet_ne rec k1 k pv hk1] at hres
            exact hres
          | error ex =>
            simp only [hps] at hrun
            cases hrp : repair rec [k1] (pyGet rec k1) kind1 ex treatment with
            | ok rv =>
              simp only [hrp] at hrun
              have hres := ih (dictSet rec k1 rv) out hnd2 hkks hrun
              rw [pyGet_dictSet_ne rec k1 k rv hk1] at hres
              exact hres
            | error e => simp [hrp] at hrun

theorem validateTsGo_raises {K : Type} (getDL : String → Value → Option K)
    (parse : Value → Except PyErr Value)
    (repair : Rec → List String → Value → K → PyErr → DatetimeErrorTreatmentEnum →
      Except PyErr Value)
    (treatment : DatetimeErrorTreatmentEnum) (props : Rec) :
    ∀ (ks : List String) (rec : Rec),
      (∃ k, k ∈ ks ∧ dictGet props k = Option.none) →
      ∃ e, validateTsGo getDL parse repair treatment props ks rec = Except.error e := by
  intro ks
  induction ks with
  | nil =>
    intro rec hex
    obtain ⟨k, hk, _⟩ := hex
    exact absurd hk (List.not_mem_nil k)
  | cons k1 ks ih =>
    intro rec hex
    obtain ⟨k, hk, hkp⟩ := hex
    simp only [validateTsGo]
    cases hp : dictGet props k1 with
    | none =>
      simp only [hp]
      exact ⟨PyErr.keyError k1, rfl⟩
    | some d1 =>
      simp only [hp]
      have hkks : k ∈ ks := by
        cases List.mem_cons.mp hk with
        | inl h =>
          subst h
          rw [hp] at hkp
          simp at hkp
        | inr h => exact h
      cases hdl1 : getDL k1 d1 with
      | none =>
        simp only [hdl1]
        exact ih rec ⟨k, hkks, hkp⟩
      | some kind1 =>
        simp only [hdl1]
        cases hps : parse (pyGet rec k1) with
        | ok pv =>
          simp only [hps]
          exact ih (dictSet rec k1 pv) ⟨k, hkks, hkp⟩
        | error ex =>
          simp only [hps]
          cases hrp : repair rec [k1] (pyGet rec k1) kind1 ex treatment with
          | ok rv =>
            simp only [hrp]
            exact ih (dictSet rec k1 rv) ⟨k, hkks, hkp⟩
          | error e =>
            simp only [hrp]
            exact ⟨e, rfl⟩

/-!
Claim theorems.
-/

/-- Claim C1, counterexample: on the empty record and the empty message,
`_add_metadata_values_to_record` leaves both `_sdc_extracted_at` and
`_sdc_deleted_at` present with value `None` (Python `dict.get` returns
`None` and the assignment stores it), not absent as the claim states. -/
theorem spec_C1_counterexample :
    dictGet (addMetadataValuesToRecord [] [] "2024-01-01T00:00:00") "_sdc_extracted_at"
        = some Value.vnone
      ∧ dictGet (addMetadataValuesToRecord [] [] "2024-01-01T00:00:00") "_sdc_deleted_at"
        = some Value.vnone := by
  decide

/-- Claim C1, amended: for every record mapping r and message mapping m,
`_add_metadata_values_to_record(r, m)` sets the `_sdc_extracted_at` key of r to
the `time_extracted` value of m, or to `None` when m has no `time_extracted`
(the key is present with a null value, not absent); sets `_sdc_batched_at`
to the current wall-clock time as ISO-8601 text; and sets `_sdc_deleted_at`
to whatever r already carries, or to `None` when r did not carry it (again
the key is present with a null value). -/
theorem spec_C1 (record message : Rec) (now_iso : String) :
    dictGet (addMetadataValuesToRecord record message now_iso) "_sdc_extracted_at"
        = some (pyGet message "time_extracted")
      ∧ dictGet (addMetadataValuesToRecord record message now_iso) "_sdc_batched_at"
        = some (Value.vstr now_iso)
      ∧ dictGet (addMetadataValuesToRecord record message now_iso) "_sdc_deleted_at"
        = some (pyGet record "_sdc_deleted_at") := by
  simp only [addMetadataValuesToRecord]
  refine ⟨?_, ?_, ?_⟩
  · rw [dictGet_dictSet_ne _ _ _ _ (by decide), dictGet_dictSet_ne _ _ _ _ (by decide),
      dictGet_dictSet_self]
  · rw [dictGet_dictSet_ne _ _ _ _ (by decide), dictGet_dictSet_self]
  · rw [dictGet_dictSet_self, pyGet_dictSet_ne _ _ _ _ (by decide),
      pyGet_dictSet_ne _ _ _ _ (by decide)]

/-- Claim C3: loading records `rs` in order into a fresh Sink and calling
`start_drain()` returns exactly the batch `rs` in FIFO order, stores it as
`records_draining`, resets `records_to_drain` to the empty list so that
`current_size` is 0 immediately afterwards, and a record `r` loaded after
the `start_drain` call goes into the fresh buffer and does not appear in
the batch that call returned. -/
theorem spec_C3 (cfg : Rec) (name : String) (schema : Schema) (kp : Option (List String))
    (rs : List Rec) (r : Rec) (hr : r ∉ rs) :
    ∃ st : SinkState,
      loadAll rs (Sink.init cfg name schema kp) = Except.ok st
        ∧ st.records_to_drain = Buffer.list rs
        ∧ (Sink.start_drain st).2 = Buffer.list rs
        ∧ (Sink.start_drain st).1.records_draining = some (Buffer.list rs)
        ∧ (Sink.start_drain st).1.records_to_drain = Buffer.list []
        ∧ (Sink.start_drain st).1.current_size = some 0
        ∧ Sink.load_record (Sink.start_drain st).1 r =
            Except.ok { (Sink.start_drain st).1 with records_to_drain := Buffer.list [r] }
        ∧ r ∉ ((Sink.start_drain st).2).elems := by
  refine ⟨{ Sink.init cfg name schema kp with records_to_drain := Buffer.list rs },
    ?_, rfl, rfl, rfl, rfl, rfl, ?_, ?_⟩
  · rw [loadAll_list rs (Sink.init cfg name schema kp) [] rfl]
    simp
  · simp [Sink.load_record, Sink.start_drain]
  · simpa [Sink.start_drain, Buffer.elems] using hr

/-- Claim C3, witness. -/
theorem spec_C3_witness :
    ∃ st : SinkState,
      loadAll [[("a", Value.vint 1)], [("a", Value.vint 2)]]
          (Sink.init [] "users" { properties := [] } Option.none) = Except.ok st
        ∧ st.records_to_drain = Buffer.list [[("a", Value.vint 1)], [("a", Value.vint 2)]]
        ∧ (Sink.start_drain st).2 = Buffer.list [[("a", Value.vint 1)], [("a", Value.vint 2)]]
        ∧ (Sink.start_drain st).1.records_draining
            = some (Buffer.list [[("a", Value.vint 1)], [("a", Value.vint 2)]])
        ∧ (Sink.start_drain st).1.records_to_drain = Buffer.list []
        ∧ (Sink.start_drain st).1.current_size = some 0
        ∧ Sink.load_record (Sink.start_drain st).1 [("a", Value.vint 3)] =
            Except.ok { (Sink.start_drain st).1 with
              records_to_drain := Buffer.list [[("a", Value.vint 3)]] }
        ∧ [("a", Value.vint 3)] ∉ ((Sink.start_drain st).2).elems :=
  spec_C3 [] "users" { properties := [] } Option.none
    [[("a", Value.vint 1)], [("a", Value.vint 2)]] [("a", Value.vint 3)] (by decide)

/-- Claim C9: calling the base `drain` with an empty list batch never
raises, and calling it with any non-empty list batch always raises
`NotImplementedError`. -/
theorem spec_C9 (st : SinkState) :
    Sink.drain st (Buffer.list []) = Except.ok ()
      ∧ ∀ l : List Rec, l ≠ [] →
          Sink.drain st (Buffer.list l) =
            Except.error (PyErr.notImplementedError
              ("Records were found to be drained and no handling exists for drain().")) := by
  constructor
  · rfl
  · intro l hl
    cases l with
    | nil => exact absurd rfl hl
    | cons x xs => rfl

/-- Claim C9, witness. -/
theorem spec_C9_witness :
    Sink.drain (Sink.init [] "users" { properties := [] } Option.none) (Buffer.list [])
        = Except.ok ()
      ∧ Sink.drain (Sink.init [] "users" { properties := [] } Option.none)
          (Buffer.list [[("a", Value.vint 1)]]) =
        Except.error (PyErr.notImplementedError
          ("Records were found to be drained and no handling exists for drain().")) :=
  ⟨(spec_C9 (Sink.init [] "users" { properties := [] } Option.none)).1,
    (spec_C9 (Sink.init [] "users" { properties := [] } Option.none)).2
      [[("a", Value.vint 1)]] (by decide)⟩

/-- Claim C10: `current_size` equals the number of records queued in
`records_to_drain`, `is_full` is true exactly when `current_size` reaches
`max_size`, which is the constant 10000; a fresh Sink has `current_size` 0
and `is_full` false; and after loading 10000 records through `load_record`
the Sink reports `current_size` 10000 and `is_full` true. -/
theorem spec_C10 (st : SinkState) (l : List Rec) (cfg : Rec) (name : String)
    (schema : Schema) (kp : Option (List String)) (rs : List Rec)
    (hst : st.records_to_drain = Buffer.list l) (hrs : rs.length = 10000) :
    st.max_size = 10000
      ∧ st.current_size = some l.length
      ∧ st.is_full = some (decide (l.length ≥ 10000))
      ∧ (Sink.init cfg name schema kp).current_size = some 0
      ∧ (Sink.init cfg name schema kp).is_full = some false
      ∧ ∃ st2 : SinkState,
          loadAll rs (Sink.init cfg name schema kp) = Except.ok st2
            ∧ st2.current_size = some 10000
            ∧ st2.is_full = some true := by
  refine ⟨rfl, ?_, ?_, rfl, rfl, ?_⟩
  · simp [SinkState.current_size, hst]
  · simp [SinkState.is_full, SinkState.current_size, hst, SinkState.max_size,
      MAX_SIZE_DEFAULT]
  · refine ⟨{ Sink.init cfg name schema kp with records_to_drain := Buffer.list rs },
      ?_, ?_, ?_⟩
    · rw [loadAll_list rs (Sink.init cfg name schema kp) [] rfl]
      simp
    · simp [SinkState.current_size, hrs]
    · simp [SinkState.is_full, SinkState.current_size, SinkState.max_size,
        MAX_SIZE_DEFAULT, hrs]

/-- A string is determined by its character data. -/
theorem string_data_inj {a b : String} (h : a.data = b.data) : a = b := by
  cases a
  cases b
  exact congrArg String.mk (by simpa using h)

/-- The unexpected-option warning text determines the offending key. -/
theorem warnMsg_injective : Function.Injective warnMsg := by
  intro a b hab
  have h2 : ("Unexpected config option found: " ++ a ++ ".").data
      = ("Unexpected config option found: " ++ b ++ ".").data := congrArg String.data hab
  simp only [String.data_append] at h2
  exact string_data_inj (List.append_cancel_left (List.append_cancel_right h2))

/-- Claim C2: for every argument tuple, constructing a Tap through the
base `TapBase.__init__` raises `AttributeError` before completing: the
final assignment evaluates `self.get_connection()`, whose guard reads
`self._conn` while that attribute is still unset (the class body only
annotates it), so the create-if-absent branch is unreachable from the base
constructor and no Tap instance is ever produced by it. -/
theorem spec_C2 (plugin_name version : String) (capabilities accepted_options : List String)
    (option_set_requirements : List (List String)) (connection_class : String)
    (config : Rec) (state : Option Rec) :
    tapBaseInit plugin_name version capabilities accepted_options option_set_requirements
        connection_class config state = Except.error (PyErr.attributeError "_conn") := rfl

/-- Claim C5: on every Tap state whose `_conn` attribute has been
assigned, `get_connection()` called twice returns the identical connection
value both times and the second call changes nothing (no duplicate
construction); when no connection exists yet (the attribute holds a falsy
value) the first call constructs the instance by invoking the configured
connection class with the current configuration, and when a connection
already exists it is returned as is. -/
theorem spec_C5 (st : TapState) (v : ConnVal) (h : st.connAttr = ConnAttr.assigned v) :
    ∃ (c : ConnVal) (st1 : TapState),
      get_connection st = Except.ok (c, st1)
        ∧ get_connection st1 = Except.ok (c, st1)
        ∧ st1.connAttr = ConnAttr.assigned c
        ∧ (v.truthy = false → c = ConnVal.conn st.conn_class st.config st.nextConnId)
        ∧ (v.truthy = true → c = v ∧ st1 = st) := by
  cases hv : v.truthy with
  | false =>
    refine ⟨ConnVal.conn st.conn_class st.config st.nextConnId,
      { st with
        connAttr := ConnAttr.assigned (ConnVal.conn st.conn_class st.config st.nextConnId)
        nextConnId := st.nextConnId + 1 }, ?_, ?_, rfl, fun _ => rfl, ?_⟩
    · simp [get_connection, h, hv]
    · simp [get_connection, ConnVal.truthy]
    · intro hc
      exact absurd hc (by decide)
  | true =>
    refine ⟨v, st, ?_, ?_, h, ?_, fun _ => ⟨rfl, rfl⟩⟩
    · simp [get_connection, h, hv]
    · simp [get_connection, h, hv]
    · intro hc
      exact absurd hc (by decide)

/-- A sample Tap state whose `_conn` attribute holds Python `None`. -/
def sampleTapStateNone : TapState :=
  { name := "sample-tap"
    vers := "0.0.1"
    capabilities := []
    accepted_options := []
    option_set_requirements := []
    conn_class := "SampleTapSnowflakeConnection"
    config := []
    connAttr := ConnAttr.assigned ConnVal.pynone
    nextConnId := 0 }

/-- Claim C5, witness: a state whose `_conn` attribute holds `None`. -/
theorem spec_C5_witness :
    ∃ (c : ConnVal) (st1 : TapState),
      get_connection sampleTapStateNone = Except.ok (c, st1)
        ∧ get_connection st1 = Except.ok (c, st1)
        ∧ st1.connAttr = ConnAttr.assigned c
        ∧ (ConnVal.pynone.truthy = false →
            c = ConnVal.conn sampleTapStateNone.conn_class sampleTapStateNone.config
                  sampleTapStateNone.nextConnId)
        ∧ (ConnVal.pynone.truthy = true →
            c = ConnVal.pynone ∧ st1 = sampleTapStateNone) :=
  spec_C5 sampleTapStateNone ConnVal.pynone rfl


/-- Claim C4: `validate_config()` returns warnings holding exactly one
string "Unexpected config option found: {key}." per configuration key not
listed in `accepted_options`; the error list is empty whenever
`option_set_requirements` is empty or at least one declared set has all of
its options among the configuration keys; and when the requirement list is
non-empty and no set is satisfied, the error list is exactly one string
listing, for each unsatisfied set, the options missing from it. -/
theorem spec_C4 (st : TapState) (hN : (dictKeys st.config).Nodup) :
    (validate_config st).1
        = ((dictKeys st.config).filter (fun k => decide (k ∉ st.accepted_options))).map warnMsg
      ∧ (∀ k, k ∈ dictKeys st.config → k ∉ st.accepted_options →
          ((validate_config st).1).count (warnMsg k) = 1)
      ∧ (st.option_set_requirements = [] → (validate_config st).2 = [])
      ∧ ((∃ rs, rs ∈ st.option_set_requirements ∧ ∀ x ∈ rs, x ∈ dictKeys st.config) →
          (validate_config st).2 = [])
      ∧ (st.option_set_requirements ≠ [] →
          (∀ rs ∈ st.option_set_requirements, ∃ x ∈ rs, x ∉ dictKeys st.config) →
          (validate_config st).2
            = [optionSetErrMsg
                ((st.option_set_requirements.filter
                    (fun rs => !(rs.all (fun x => decide (x ∈ dictKeys st.config))))).map
                  (fun rs => rs.filter (fun x => decide (x ∉ dictKeys st.config))))]) := by
  refine ⟨rfl, ?_, ?_, ?_, ?_⟩
  · intro k hk hka
    have hmem : k ∈ (dictKeys st.config).filter (fun k => decide (k ∉ st.accepted_options)) :=
      List.mem_filter.mpr ⟨hk, decide_eq_true hka⟩
    have hnd : ((dictKeys st.config).filter
        (fun k => decide (k ∉ st.accepted_options))).Nodup := hN.filter _
    calc ((validate_config st).1).count (warnMsg k)
        = (((dictKeys st.config).filter
            (fun k => decide (k ∉ st.accepted_options))).map warnMsg).count (warnMsg k) := rfl
      _ = ((dictKeys st.config).filter
            (fun k => decide (k ∉ st.accepted_options))).count k :=
          List.count_map_of_injective _ warnMsg warnMsg_injective k
      _ = 1 := List.count_eq_one_of_mem hnd hmem
  · intro h
    simp [validate_config, h]
  · intro hsat
    obtain ⟨rs, hrs, hall⟩ := hsat
    have hm : st.option_set_requirements.any
        (fun rs => rs.all (fun x => decide (x ∈ dictKeys st.config))) = true := by
      rw [List.any_eq_true]
      exact ⟨rs, hrs, List.all_eq_true.mpr (fun x hx => decide_eq_true (hall x hx))⟩
    by_cases he : st.option_set_requirements.isEmpty
    · simp [validate_config, he]
    · simp [validate_config, he, hm]
  · intro hne hall
    have hm : st.option_set_requirements.any
        (fun rs => rs.all (fun x => decide (x ∈ dictKeys st.config))) = false := by
      by_contra hcon
      rw [Bool.not_eq_false, List.any_eq_true] at hcon
      obtain ⟨rs, hrs, hall2⟩ := hcon
      rw [List.all_eq_true] at hall2
      obtain ⟨x, hx, hxk⟩ := hall rs hrs
      exact hxk (of_decide_eq_true (hall2 x hx))
    have he : st.option_set_requirements.isEmpty = false := by
      cases hreq : st.option_set_requirements with
      | nil => exact absurd hreq hne
      | cons a l => rfl
    simp [validate_config, he, hm]

/-- A sample Tap state: configuration with keys host and extra, accepted
options host and port, and two option sets that are both unsatisfied. -/
def sampleTapStateCfg : TapState :=
  { name := "sample-tap"
    vers := "0.0.1"
    capabilities := []
    accepted_options := ["host", "port"]
    option_set_requirements := [["user", "password"], ["token"]]
    conn_class := "SampleTapSnowflakeConnection"
    config := [("host", Value.vstr "x"), ("extra", Value.vint 1)]
    connAttr := ConnAttr.unset
    nextConnId := 0 }

/-- Claim C4, witness. -/
theorem spec_C4_witness :
    (validate_config sampleTapStateCfg).1
        = ((dictKeys sampleTapStateCfg.config).filter
            (fun k => decide (k ∉ sampleTapStateCfg.accepted_options))).map warnMsg
      ∧ (∀ k, k ∈ dictKeys sampleTapStateCfg.config →
          k ∉ sampleTapStateCfg.accepted_options →
          ((validate_config sampleTapStateCfg).1).count (warnMsg k) = 1)
      ∧ (sampleTapStateCfg.option_set_requirements = [] →
          (validate_config sampleTapStateCfg).2 = [])
      ∧ ((∃ rs, rs ∈ sampleTapStateCfg.option_set_requirements
              ∧ ∀ x ∈ rs, x ∈ dictKeys sampleTapStateCfg.config) →
          (validate_config sampleTapStateCfg).2 = [])
      ∧ (sampleTapStateCfg.option_set_requirements ≠ [] →
          (∀ rs ∈ sampleTapStateCfg.option_set_requirements,
            ∃ x ∈ rs, x ∉ dictKeys sampleTapStateCfg.config) →
          (validate_config sampleTapStateCfg).2
            = [optionSetErrMsg
                ((sampleTapStateCfg.option_set_requirements.filter
                    (fun rs => !(rs.all (fun x =>
                      decide (x ∈ dictKeys sampleTapStateCfg.config))))).map
                  (fun rs => rs.filter (fun x =>
                    decide (x ∉ dictKeys sampleTapStateCfg.config))))]) :=
  spec_C4 sampleTapStateCfg (by decide)

/-- Claim C10, witness. -/
theorem spec_C10_witness :
    (Sink.init [] "users" { properties := [] } Option.none).max_size = 10000
      ∧ (Sink.init [] "users" { properties := [] } Option.none).current_size
          = some (List.length ([] : List Rec))
      ∧ (Sink.init [] "users" { properties := [] } Option.none).is_full
          = some (decide (List.length ([] : List Rec) ≥ 10000))
      ∧ (Sink.init [] "users" { properties := [] } Option.none).current_size = some 0
      ∧ (Sink.init [] "users" { properties := [] } Option.none).is_full = some false
      ∧ ∃ st2 : SinkState,
          loadAll (List.replicate 10000 ([] : Rec))
              (Sink.init [] "users" { properties := [] } Option.none) = Except.ok st2
            ∧ st2.current_size = some 10000
            ∧ st2.is_full = some true :=
  spec_C10 (Sink.init [] "users" { properties := [] } Option.none) [] [] "users"
    { properties := [] } Option.none (List.replicate 10000 ([] : Rec)) rfl
    (by rw [List.length_replicate])

/-- Claim C6: a `query` call with a list of statements executes a
START TRANSACTION statement first and then each supplied statement in the
given order on the single scoped cursor, and (with the default
`max_records = 0`) returns the fully fetched row list of the last
executed statement whose reported row count was positive, or the empty
list when no executed statement produced rows. -/
theorem spec_C6 (env : String → StmtResult) (stmts : List String) :
    (query env (QueryArg.list stmts) Option.none 0).1.filterMap executedSql
        = "START TRANSACTION" :: stmts
      ∧ (query env (QueryArg.list stmts) Option.none 0).2
          = Except.ok (specLastRowReturningRows env ("START TRANSACTION" :: stmts) [])
      ∧ ((∀ s ∈ "START TRANSACTION" :: stmts, (env s).rowcount ≤ 0) →
          (query env (QueryArg.list stmts) Option.none 0).2 = Except.ok []) := by
  have h := queryGo_zero env ("START TRANSACTION" :: stmts) [] []
  refine ⟨?_, h.2, ?_⟩
  · have h1 := h.1
    simpa [query] using h1
  · intro hnp
    have h2 := h.2
    rw [specLastRowReturningRows_of_nonpos env ("START TRANSACTION" :: stmts) []
      (fun s hs => not_lt.mpr (hnp s hs))] at h2
    exact h2

/-- Claim C6, witness: a two-statement list against a cursor reporting no
rows for any statement. -/
theorem spec_C6_witness :
    (query (fun _ => ({ rowcount := 0, rows := [] } : StmtResult))
          (QueryArg.list ["CREATE TABLE t (a int)", "SELECT a FROM t"])
          Option.none 0).1.filterMap executedSql
        = "START TRANSACTION" :: ["CREATE TABLE t (a int)", "SELECT a FROM t"]
      ∧ (query (fun _ => ({ rowcount := 0, rows := [] } : StmtResult))
            (QueryArg.list ["CREATE TABLE t (a int)", "SELECT a FROM t"])
            Option.none 0).2
          = Except.ok (specLastRowReturningRows
              (fun _ => ({ rowcount := 0, rows := [] } : StmtResult))
              ("START TRANSACTION" :: ["CREATE TABLE t (a int)", "SELECT a FROM t"]) [])
      ∧ ((∀ s ∈ "START TRANSACTION" :: ["CREATE TABLE t (a int)", "SELECT a FROM t"],
            ((fun _ => ({ rowcount := 0, rows := [] } : StmtResult)) s).rowcount ≤ 0) →
          (query (fun _ => ({ rowcount := 0, rows := [] } : StmtResult))
              (QueryArg.list ["CREATE TABLE t (a int)", "SELECT a FROM t"])
              Option.none 0).2 = Except.ok []) :=
  spec_C6 (fun _ => ({ rowcount := 0, rows := [] } : StmtResult))
    ["CREATE TABLE t (a int)", "SELECT a FROM t"]

/-- Claim C7: whenever `max_records` is non-zero and the statement just
executed reports a row count exceeding it, the statement loop of `query` stops
at that statement with the too-many-records failure naming the configured
limit, and the trace shows the statement was executed but its rows were
never fetched; with `max_records = 0` the guard never fires and a
row-returning single statement has all of its rows fetched and returned. -/
theorem spec_C7 (env : String → StmtResult) (mr : Int) (s : String) (rest : List String)
    (evs : List Event) (acc : List Row)
    (h0 : mr ≠ 0) (h1 : (env s).rowcount > mr) :
    queryGo env mr (s :: rest) evs acc
        = (evs ++ [Event.executed s],
            Except.error (PyErr.tooManyRecords (tooManyMsg mr)))
      ∧ (Event.fetched s ∉ evs →
          Event.fetched s ∉ (queryGo env mr (s :: rest) evs acc).1)
      ∧ (∀ s2 : String, (env s2).rowcount > 0 →
          query env (QueryArg.single s2) Option.none 0
            = ([Event.executed s2, Event.fetched s2], Except.ok (env s2).rows)) := by
  have hA : queryGo env mr (s :: rest) evs acc
      = (evs ++ [Event.executed s],
          Except.error (PyErr.tooManyRecords (tooManyMsg mr))) := by
    simp only [queryGo]
    rw [if_pos ⟨h0, h1⟩]
  refine ⟨hA, ?_, ?_⟩
  · intro hf
    rw [hA]
    simp [List.mem_append, hf]
  · intro s2 h2
    simp only [query, queryGo]
    have hg : ¬((0 : Int) ≠ 0 ∧ (env s2).rowcount > 0) := fun hc => hc.1 rfl
    rw [if_neg hg, if_pos h2]
    simp [queryGo]

/-- A sample cursor environment reporting 2 rows for every statement. -/
def envTwoRows : String → StmtResult :=
  fun _ => { rowcount := 2, rows := [[("a", Value.vint 1)], [("a", Value.vint 2)]] }

/-- Claim C7, witness: a statement reporting 2 rows against limit 1. -/
theorem spec_C7_witness :
    queryGo envTwoRows 1 ["SELECT a FROM t"] [] []
        = ([Event.executed "SELECT a FROM t"],
            Except.error (PyErr.tooManyRecords (tooManyMsg 1)))
      ∧ (Event.fetched "SELECT a FROM t" ∉ ([] : List Event) →
          Event.fetched "SELECT a FROM t" ∉
            (queryGo envTwoRows 1 ["SELECT a FROM t"] [] []).1)
      ∧ (∀ s2 : String, (envTwoRows s2).rowcount > 0 →
          query envTwoRows (QueryArg.single s2) Option.none 0
            = ([Event.executed s2, Event.fetched s2],
                Except.ok (envTwoRows s2).rows)) :=
  spec_C7 envTwoRows 1 "SELECT a FROM t" [] [] [] (by decide) (by decide)

/-- Claim C8: under a duplicate-free record key view, whenever
`_validate_timestamps_in_record` returns, every field whose type
descriptor in `schema["properties"]` is detected as date/datetime/time-like
has had its value replaced unconditionally: by the parsed value when the
parse succeeded, and by a value the external repair routine returned under
the configured treatment when the parse failed; and whenever some record
field is missing from `schema["properties"]`, the operation raises. -/
theorem spec_C8 {K : Type} (getDL : String → Value → Option K)
    (parse : Value → Except PyErr Value)
    (repair : Rec → List String → Value → K → PyErr → DatetimeErrorTreatmentEnum →
      Except PyErr Value)
    (record : Rec) (schema : Schema) (treatment : DatetimeErrorTreatmentEnum)
    (hN : (dictKeys record).Nodup) :
    (∀ (k : String) (d : Value) (kind : K) (out : Rec),
        k ∈ dictKeys record → dictGet schema.properties k = some d →
        getDL k d = some kind →
        validateTimestampsInRecord getDL parse repair record schema treatment
          = Except.ok out →
        ((∃ pv, parse (pyGet record k) = Except.ok pv ∧ dictGet out k = some pv)
          ∨ (∃ ex rm rv, parse (pyGet record k) = Except.error ex
              ∧ repair rm [k] (pyGet record k) kind ex treatment = Except.ok rv
              ∧ dictGet out k = some rv)))
      ∧ ((∃ k, k ∈ dictKeys record ∧ dictGet schema.properties k = Option.none) →
          ∃ e, validateTimestampsInRecord getDL parse repair record schema treatment
            = Except.error e) := by
  constructor
  · intro k d kind out hk hd hdl hrun
    exact validateTsGo_replaces getDL parse repair treatment schema.properties k d kind
      hd hdl (dictKeys record) record out hN hk hrun
  · intro hex
    exact validateTsGo_raises getDL parse repair treatment schema.properties
      (dictKeys record) record hex

/-- A sample datelike-type detector that flags every descriptor. -/
def sampleGetDL : String → Value → Option Unit := fun _ _ => some ()

/-- A sample parser that accepts every value unchanged. -/
def sampleParse : Value → Except PyErr Value := fun v => Except.ok v

/-- A sample repair routine that nulls the field. -/
def sampleRepair :
    Rec → List String → Value → Unit → PyErr → DatetimeErrorTreatmentEnum →
      Except PyErr Value :=
  fun _ _ _ _ _ _ => Except.ok Value.vnone

/-- A sample record with a single timestamp field. -/
def sampleRecord : Rec := [("ts", Value.vstr "2024-03-01T10:00:00Z")]

/-- A sample schema declaring the timestamp field. -/
def sampleSchema : Schema := { properties := [("ts", Value.vstr "date-time")] }

/-- Claim C8, witness. -/
theorem spec_C8_witness :
    (∀ (k : String) (d : Value) (kind : Unit) (out : Rec),
        k ∈ dictKeys sampleRecord → dictGet sampleSchema.properties k = some d →
        sampleGetDL k d = some kind →
        validateTimestampsInRecord sampleGetDL sampleParse sampleRepair sampleRecord
            sampleSchema DatetimeErrorTreatmentEnum.NULL = Except.ok out →
        ((∃ pv, sampleParse (pyGet sampleRecord k) = Except.ok pv
            ∧ dictGet out k = some pv)
          ∨ (∃ ex rm rv, sampleParse (pyGet sampleRecord k) = Except.error ex
              ∧ sampleRepair rm [k] (pyGet sampleRecord k) kind ex
                  DatetimeErrorTreatmentEnum.NULL = Except.ok rv
              ∧ dictGet out k = some rv)))
      ∧ ((∃ k, k ∈ dictKeys sampleRecord
            ∧ dictGet sampleSchema.properties k = Option.none) →
          ∃ e, validateTimestampsInRecord sampleGetDL sampleParse sampleRepair
              sampleRecord sampleSchema DatetimeErrorTreatmentEnum.NULL
            = Except.error e) :=
  spec_C8 sampleGetDL sampleParse sampleRepair sampleRecord sampleSchema
    DatetimeErrorTreatmentEnum.NULL (by decide)
